import Mathlib

/-!
Verification development for the rumi-leaf repository.

The definitions below are a shallow embedding of the two generator scripts:

* `generate_leaf_stl.py` — the watertight heightfield mesh builder
  `create_watertight_mesh(height_map, alpha, scale_xy, scale_z, base_thickness)`.
  Machine floats are modelled by exact rationals; the `height_map` and `alpha`
  2D arrays are modelled as functions `Nat → Nat → ℚ`; the script's local
  constants `step = 3` and `alpha_threshold = 0.3` are exposed as parameters of
  `LeafParams` (the script instantiates them with those values).

* `generate_disc_floret_stl.py` — the convex-disc height profile of
  `create_convex_disc` and the Vogel-spiral floret placement loop of
  `create_disc_floret_mesh`, modelled over the reals (π and square roots);
  the pseudo-random jitter draws are external collaborators and appear as
  explicit parameters.
-/

set_option maxHeartbeats 1000000

set_option maxRecDepth 100000

set_option linter.unusedVariables false

abbrev Vec3 := ℚ × ℚ × ℚ

abbrev VKey := Nat × Nat × Bool

abbrev Face := Nat × Nat × Nat

/-- Parameters of `create_watertight_mesh`.  `h`, `w` are the shape of the
`height_map`/`alpha` arrays; `step` and `alphaThreshold` are the script's
local constants (3 and 0.3 in the source). -/
structure LeafParams where
  h : Nat
  w : Nat
  step : Nat
  alphaThreshold : ℚ
  heightMap : Nat → Nat → ℚ
  alpha : Nat → Nat → ℚ
  scale_xy : ℚ
  scale_z : ℚ
  base_thickness : ℚ

/-- `h_small = h // step` (Python floor division). -/
def hSmall (P : LeafParams) : Nat := P.h / P.step

/-- `w_small = w // step` (Python floor division). -/
def wSmall (P : LeafParams) : Nat := P.w / P.step

/-- The loop body filling `alpha_small[i, j] = alpha[min(i*step, h-1), min(j*step, w-1)]`. -/
def alphaSmallAt (P : LeafParams) (i j : Nat) : ℚ :=
  P.alpha (min (i * P.step) (P.h - 1)) (min (j * P.step) (P.w - 1))

/-- The downsampled `alpha_small` array built by the nested loops (a
`h_small × w_small` array of clamped stride samples). -/
def alpha_small (P : LeafParams) : List (List ℚ) :=
  (List.range (hSmall P)).map fun i => (List.range (wSmall P)).map fun j => alphaSmallAt P i j

/-- The occupancy test `alpha_small[i, j] > alpha_threshold` for in-range `i`, `j`. -/
def occupiedAt (P : LeafParams) (i j : Nat) : Bool :=
  decide (P.alphaThreshold < alphaSmallAt P i j)

/-- `is_leaf_cell(i, j)` from the source: bounds check plus occupancy
(indices are `Int` because the wall loop probes `i-1`, `j-1`, which in Python
may be negative). -/
def is_leaf_cell (P : LeafParams) (i j : Int) : Bool :=
  decide (0 ≤ i) && decide (i < (hSmall P : Int)) && decide (0 ≤ j) &&
    decide (j < (wSmall P : Int)) && occupiedAt P i.toNat j.toNat

/-- `dx = scale_xy / w_small`. -/
def dxOf (P : LeafParams) : ℚ := P.scale_xy / (wSmall P : ℚ)

/-- `dy = scale_xy / h_small`. -/
def dyOf (P : LeafParams) : ℚ := P.scale_xy / (hSmall P : ℚ)

/-- `x = (j - w_small/2) * dx`. -/
def xPos (P : LeafParams) (j : Nat) : ℚ := ((j : ℚ) - (wSmall P : ℚ) / 2) * dxOf P

/-- `y = (i - h_small/2) * dy`. -/
def yPos (P : LeafParams) (i : Nat) : ℚ := ((i : ℚ) - (hSmall P : ℚ) / 2) * dyOf P

/-- `z_top = height_map[min(i*step, h-1), min(j*step, w-1)] * scale_z`. -/
def zTop (P : LeafParams) (i j : Nat) : ℚ :=
  P.heightMap (min (i * P.step) (P.h - 1)) (min (j * P.step) (P.w - 1)) * P.scale_z

/-- The top vertex appended for an occupied cell. -/
def topVertex (P : LeafParams) (i j : Nat) : Vec3 := (xPos P j, yPos P i, zTop P i j)

/-- The bottom vertex appended for an occupied cell. -/
def bottomVertex (P : LeafParams) (i j : Nat) : Vec3 := (xPos P j, yPos P i, -P.base_thickness)

/-- State of the vertex-creation loop: the `vertices` list and the
`vertex_idx` dictionary (modelled as an association list; keys are never
inserted twice, so first-match lookup agrees with the Python dict). -/
abbrev VState := List Vec3 × List (VKey × Nat)

/-- Body of the vertex-creation loop for one cell `(i, j)`: when occupied it
appends the top vertex (recording its index, the current length) and then the
bottom vertex. -/
def addCell (P : LeafParams) (acc : VState) (i j : Nat) : VState :=
  if occupiedAt P i j then
    (acc.1 ++ [topVertex P i j, bottomVertex P i j],
     acc.2 ++ [((i, j, true), acc.1.length), ((i, j, false), acc.1.length + 1)])
  else acc

/-- Row-major enumeration of the nested `for i in range(hs): for j in range(ws)` loops. -/
def rowMajor (hs ws : Nat) : List (Nat × Nat) :=
  (List.range hs).flatMap fun i => (List.range ws).map fun j => (i, j)

/-- The vertex-creation loops of `create_watertight_mesh`. -/
def buildVerts (P : LeafParams) : VState :=
  (rowMajor (hSmall P) (wSmall P)).foldl (fun acc c => addCell P acc c.1 c.2) ([], [])

/-- The `vertices` list produced by the vertex-creation loops. -/
def vertices (P : LeafParams) : List Vec3 := (buildVerts P).1

/-- Dictionary lookup (first match; keys are unique in `buildVerts`). -/
def lookupIdx : List (VKey × Nat) → VKey → Option Nat
  | [], _ => none
  | (k, v) :: rest, key => if key = k then some v else lookupIdx rest key

/-- The `vertex_idx` dictionary produced by the vertex-creation loops. -/
def vertex_idx (P : LeafParams) (k : VKey) : Option Nat := lookupIdx (buildVerts P).2 k

/-- Index lookup as used during face emission; a missing key is mapped to the
(out-of-range) sentinel `(vertices P).length`, so a failed lookup can never
masquerade as a valid vertex reference. -/
def vIdx (P : LeafParams) (i j : Nat) (s : Bool) : Nat :=
  (vertex_idx P (i, j, s)).getD (vertices P).length

/-- A quad is active iff its 4 corner cells all pass `is_leaf_cell`. -/
def quadActive (P : LeafParams) (i j : Int) : Bool :=
  is_leaf_cell P i j && is_leaf_cell P i (j + 1) && is_leaf_cell P (i + 1) j &&
    is_leaf_cell P (i + 1) (j + 1)

/-- The surface faces emitted for quad `(i, j)`: two top triangles and two
(reversed) bottom triangles when the quad is active, nothing otherwise. -/
def surfaceQuad (P : LeafParams) (i j : Nat) : List Face :=
  if quadActive P i j then
    [(vIdx P i j true, vIdx P i (j + 1) true, vIdx P (i + 1) (j + 1) true),
     (vIdx P i j true, vIdx P (i + 1) (j + 1) true, vIdx P (i + 1) j true),
     (vIdx P i j false, vIdx P (i + 1) (j + 1) false, vIdx P i (j + 1) false),
     (vIdx P i j false, vIdx P (i + 1) j false, vIdx P (i + 1) (j + 1) false)]
  else []

/-- The wall faces emitted for quad `(i, j)`: for each of its 4 edges, two
wall triangles when the edge borders an inactive/missing neighbour (the
source's `i == 0 or not (...)` conditions), nothing for an inactive quad. -/
def wallQuad (P : LeafParams) (i j : Nat) : List Face :=
  if quadActive P i j then
    (if i == 0 ||
        !(is_leaf_cell P ((i : Int) - 1) (j : Int) &&
          is_leaf_cell P ((i : Int) - 1) ((j : Int) + 1)) then
       [(vIdx P i j false, vIdx P i (j + 1) true, vIdx P i j true),
        (vIdx P i j false, vIdx P i (j + 1) false, vIdx P i (j + 1) true)]
     else []) ++
    (if i == hSmall P - 2 ||
        !(is_leaf_cell P ((i : Int) + 2) (j : Int) &&
          is_leaf_cell P ((i : Int) + 2) ((j : Int) + 1)) then
       [(vIdx P (i + 1) j false, vIdx P (i + 1) j true, vIdx P (i + 1) (j + 1) true),
        (vIdx P (i + 1) j false, vIdx P (i + 1) (j + 1) true, vIdx P (i + 1) (j + 1) false)]
     else []) ++
    (if j == 0 ||
        !(is_leaf_cell P (i : Int) ((j : Int) - 1) &&
          is_leaf_cell P ((i : Int) + 1) ((j : Int) - 1)) then
       [(vIdx P i j false, vIdx P (i + 1) j true, vIdx P i j true),
        (vIdx P i j false, vIdx P (i + 1) j false, vIdx P (i + 1) j true)]
     else []) ++
    (if j == wSmall P - 2 ||
        !(is_leaf_cell P (i : Int) ((j : Int) + 2) &&
          is_leaf_cell P ((i : Int) + 1) ((j : Int) + 2)) then
       [(vIdx P i (j + 1) false, vIdx P i (j + 1) true, vIdx P (i + 1) (j + 1) true),
        (vIdx P i (j + 1) false, vIdx P (i + 1) (j + 1) true, vIdx P (i + 1) (j + 1) false)]
     else [])
  else []

/-- The quad indices visited by the face loops (`range(h_small-1) × range(w_small-1)`). -/
def quadList (P : LeafParams) : List (Nat × Nat) := rowMajor (hSmall P - 1) (wSmall P - 1)

/-- All top/bottom surface faces, in emission order. -/
def surfaceFaces (P : LeafParams) : List Face :=
  (quadList P).flatMap fun c => surfaceQuad P c.1 c.2

/-- All wall faces, in emission order. -/
def wallFaces (P : LeafParams) : List Face :=
  (quadList P).flatMap fun c => wallQuad P c.1 c.2

/-- The complete face list of `create_watertight_mesh` (surface loop, then wall loop). -/
def faces (P : LeafParams) : List Face := surfaceFaces P ++ wallFaces P

/-- Undirected edge of a triangle, as an ordered vertex-index pair. -/
def edgeOf (a b : Nat) : Nat × Nat := (min a b, max a b)

/-- The three undirected edges of one triangle. -/
def faceEdges (f : Face) : List (Nat × Nat) :=
  [edgeOf f.1 f.2.1, edgeOf f.2.1 f.2.2, edgeOf f.2.2 f.1]

/-- The multiset of all triangle edges of the mesh (with multiplicity). -/
def allEdges (P : LeafParams) : List (Nat × Nat) := (faces P).flatMap faceEdges

/-- Injective encoding of an edge as a natural number (`Nat.pair`), so that
the watertightness certificate sorts and compares bare numerals. -/
def edgeCode (e : Nat × Nat) : Nat := Nat.pair e.1 e.2

/-- Fuel-driven merge of two code lists (structurally recursive so that the
kernel can evaluate it; with enough fuel this is the usual merge, and count
preservation below holds for any fuel). -/
def mergeN : Nat → List Nat → List Nat → List Nat
  | 0, xs, ys => xs ++ ys
  | _ + 1, [], ys => ys
  | _ + 1, x :: xs, [] => x :: xs
  | fuel + 1, x :: xs, y :: ys =>
      if Nat.ble x y then x :: mergeN fuel xs (y :: ys)
      else y :: mergeN fuel (x :: xs) ys

/-- Split a list into two halves by alternation (a single match so that
evaluation never duplicates the recursive call). -/
def splitN : List Nat → List Nat × List Nat
  | [] => ([], [])
  | a :: rest =>
    match splitN rest with
    | (l1, l2) => (a :: l2, l1)

/-- Fuel-driven merge sort (kernel-evaluable). -/
def msortN : Nat → List Nat → List Nat
  | 0, l => l
  | fuel + 1, l =>
    match l with
    | [] => []
    | [a] => [a]
    | a :: b :: rest =>
        match splitN (a :: b :: rest) with
        | (l1, l2) =>
            mergeN (a :: b :: rest).length (msortN fuel l1) (msortN fuel l2)

/-- Check that a list consists of successive blocks of exactly two equal
elements, with strictly increasing block heads; on a sorted code list this
certifies that every code occurs exactly twice. -/
def pairsOKN : List Nat → Bool
  | [] => true
  | [_] => false
  | [a, b] => a == b
  | a :: b :: c :: rest => a == b && Nat.blt a c && pairsOKN (c :: rest)

/-- Index lookup against an explicitly passed loop state (definitionally the
same as `vIdx` at `buildVerts P`; passing the state once lets the kernel share
its evaluation across all lookups when checking concrete grids). -/
def vIdxSt (st : VState) (i j : Nat) (s : Bool) : Nat :=
  (lookupIdx st.2 (i, j, s)).getD st.1.length

/-- `surfaceQuad` against an explicitly passed loop state. -/
def surfaceQuadSt (P : LeafParams) (st : VState) (i j : Nat) : List Face :=
  if quadActive P i j then
    [(vIdxSt st i j true, vIdxSt st i (j + 1) true, vIdxSt st (i + 1) (j + 1) true),
     (vIdxSt st i j true, vIdxSt st (i + 1) (j + 1) true, vIdxSt st (i + 1) j true),
     (vIdxSt st i j false, vIdxSt st (i + 1) (j + 1) false, vIdxSt st i (j + 1) false),
     (vIdxSt st i j false, vIdxSt st (i + 1) j false, vIdxSt st (i + 1) (j + 1) false)]
  else []

/-- `wallQuad` against an explicitly passed loop state. -/
def wallQuadSt (P : LeafParams) (st : VState) (i j : Nat) : List Face :=
  if quadActive P i j then
    (if i == 0 ||
        !(is_leaf_cell P ((i : Int) - 1) (j : Int) &&
          is_leaf_cell P ((i : Int) - 1) ((j : Int) + 1)) then
       [(vIdxSt st i j false, vIdxSt st i (j + 1) true, vIdxSt st i j true),
        (vIdxSt st i j false, vIdxSt st i (j + 1) false, vIdxSt st i (j + 1) true)]
     else []) ++
    (if i == hSmall P - 2 ||
        !(is_leaf_cell P ((i : Int) + 2) (j : Int) &&
          is_leaf_cell P ((i : Int) + 2) ((j : Int) + 1)) then
       [(vIdxSt st (i + 1) j false, vIdxSt st (i + 1) j true, vIdxSt st (i + 1) (j + 1) true),
        (vIdxSt st (i + 1) j false, vIdxSt st (i + 1) (j + 1) true,
          vIdxSt st (i + 1) (j + 1) false)]
     else []) ++
    (if j == 0 ||
        !(is_leaf_cell P (i : Int) ((j : Int) - 1) &&
          is_leaf_cell P ((i : Int) + 1) ((j : Int) - 1)) then
       [(vIdxSt st i j false, vIdxSt st (i + 1) j true, vIdxSt st i j true),
        (vIdxSt st i j false, vIdxSt st (i + 1) j false, vIdxSt st (i + 1) j true)]
     else []) ++
    (if j == wSmall P - 2 ||
        !(is_leaf_cell P (i : Int) ((j : Int) + 2) &&
          is_leaf_cell P ((i : Int) + 1) ((j : Int) + 2)) then
       [(vIdxSt st i (j + 1) false, vIdxSt st i (j + 1) true, vIdxSt st (i + 1) (j + 1) true),
        (vIdxSt st i (j + 1) false, vIdxSt st (i + 1) (j + 1) true,
          vIdxSt st (i + 1) (j + 1) false)]
     else [])
  else []

/-- Expected edge codes 0-99 of the 10x10 grid's mesh (emission order). -/
def eLits0 : List Nat :=
  [ 4, 486, 484, 484, 504, 400, 530, 532, 10, 442, 550, 530, 18, 580, 578, 578, 598, 486, 628,
   630, 28, 532, 648, 628, 40, 682, 680, 680, 700, 580, 734, 736, 54, 630, 754, 734, 70, 792,
   790, 790, 810, 682, 848, 850, 88, 736, 868, 848, 108, 910, 908, 908, 928, 792, 970, 972, 130,
   850, 990, 970, 154, 1036, 1034, 1034, 1054, 910, 1100, 1102, 180, 972, 1120, 1100, 208, 1170,
   1168, 1168, 1188, 1036, 1238, 1240, 238, 1102, 1258, 1238, 270, 1312, 1310, 1310, 1330, 1170,
   1384, 1386, 304, 1240, 1404, 1384, 340, 1462, 1460, 1460]

/-- Expected edge codes 100-199 of the 10x10 grid's mesh (emission order). -/
def eLits1 : List Nat :=
  [ 1480, 1312, 1538, 1540, 378, 1386, 1558, 1538, 504, 1786, 1784, 1784, 1804, 1620, 1870,
   1872, 550, 1702, 1890, 1870, 598, 1960, 1958, 1958, 1978, 1786, 2048, 2050, 648, 1872, 2068,
   2048, 700, 2142, 2140, 2140, 2160, 1960, 2234, 2236, 754, 2050, 2254, 2234, 810, 2332, 2330,
   2330, 2350, 2142, 2428, 2430, 868, 2236, 2448, 2428, 928, 2530, 2528, 2528, 2548, 2332, 2630,
   2632, 990, 2430, 2650, 2630, 1054, 2736, 2734, 2734, 2754, 2530, 2840, 2842, 1120, 2632,
   2860, 2840, 1188, 2950, 2948, 2948, 2968, 2736, 3058, 3060, 1258, 2842, 3078, 3058, 1330,
   3172, 3170, 3170, 3190, 2950, 3284, 3286]

/-- Expected edge codes 200-299 of the 10x10 grid's mesh (emission order). -/
def eLits2 : List Nat :=
  [ 1404, 3060, 3304, 3284, 1480, 3402, 3400, 3400, 3420, 3172, 3518, 3520, 1558, 3286, 3538,
   3518, 1804, 3886, 3884, 3884, 3904, 3640, 4010, 4012, 1890, 3762, 4030, 4010, 1978, 4140,
   4138, 4138, 4158, 3886, 4268, 4270, 2068, 4012, 4288, 4268, 2160, 4402, 4400, 4400, 4420,
   4140, 4534, 4536, 2254, 4270, 4554, 4534, 2350, 4672, 4670, 4670, 4690, 4402, 4808, 4810,
   2448, 4536, 4828, 4808, 2548, 4950, 4948, 4948, 4968, 4672, 5090, 5092, 2650, 4810, 5110,
   5090, 2754, 5236, 5234, 5234, 5254, 4950, 5380, 5382, 2860, 5092, 5400, 5380, 2968, 5530,
   5528, 5528, 5548, 5236, 5678, 5680, 3078, 5382, 5698, 5678]

/-- Expected edge codes 300-399 of the 10x10 grid's mesh (emission order). -/
def eLits3 : List Nat :=
  [ 3190, 5832, 5830, 5830, 5850, 5530, 5984, 5986, 3304, 5680, 6004, 5984, 3420, 6142, 6140,
   6140, 6160, 5832, 6298, 6300, 3538, 5986, 6318, 6298, 3904, 6786, 6784, 6784, 6804, 6460,
   6950, 6952, 4030, 6622, 6970, 6950, 4158, 7120, 7118, 7118, 7138, 6786, 7288, 7290, 4288,
   6952, 7308, 7288, 4420, 7462, 7460, 7460, 7480, 7120, 7634, 7636, 4554, 7290, 7654, 7634,
   4690, 7812, 7810, 7810, 7830, 7462, 7988, 7990, 4828, 7636, 8008, 7988, 4968, 8170, 8168,
   8168, 8188, 7812, 8350, 8352, 5110, 7990, 8370, 8350, 5254, 8536, 8534, 8534, 8554, 8170,
   8720, 8722, 5400, 8352, 8740, 8720, 5548, 8910, 8908, 8908]

/-- Expected edge codes 400-499 of the 10x10 grid's mesh (emission order). -/
def eLits4 : List Nat :=
  [ 8928, 8536, 9098, 9100, 5698, 8722, 9118, 9098, 5850, 9292, 9290, 9290, 9310, 8910, 9484,
   9486, 6004, 9100, 9504, 9484, 6160, 9682, 9680, 9680, 9700, 9292, 9878, 9880, 6318, 9486,
   9898, 9878, 6804, 10486, 10484, 10484, 10504, 10080, 10690, 10692, 6970, 10282, 10710, 10690,
   7138, 10900, 10898, 10898, 10918, 10486, 11108, 11110, 7308, 10692, 11128, 11108, 7480,
   11322, 11320, 11320, 11340, 10900, 11534, 11536, 7654, 11110, 11554, 11534, 7830, 11752,
   11750, 11750, 11770, 11322, 11968, 11970, 8008, 11536, 11988, 11968, 8188, 12190, 12188,
   12188, 12208, 11752, 12410, 12412, 8370, 11970, 12430, 12410, 8554, 12636, 12634, 12634,
   12654, 12190, 12860, 12862]

/-- Expected edge codes 500-599 of the 10x10 grid's mesh (emission order). -/
def eLits5 : List Nat :=
  [ 8740, 12412, 12880, 12860, 8928, 13090, 13088, 13088, 13108, 12636, 13318, 13320, 9118,
   12862, 13338, 13318, 9310, 13552, 13550, 13550, 13570, 13090, 13784, 13786, 9504, 13320,
   13804, 13784, 9700, 14022, 14020, 14020, 14040, 13552, 14258, 14260, 9898, 13786, 14278,
   14258, 10504, 14986, 14984, 14984, 15004, 14500, 15230, 15232, 10710, 14742, 15250, 15230,
   10918, 15480, 15478, 15478, 15498, 14986, 15728, 15730, 11128, 15232, 15748, 15728, 11340,
   15982, 15980, 15980, 16000, 15480, 16234, 16236, 11554, 15730, 16254, 16234, 11770, 16492,
   16490, 16490, 16510, 15982, 16748, 16750, 11988, 16236, 16768, 16748, 12208, 17010, 17008,
   17008, 17028, 16492, 17270, 17272, 12430, 16750, 17290, 17270]

/-- Expected edge codes 600-699 of the 10x10 grid's mesh (emission order). -/
def eLits6 : List Nat :=
  [ 12654, 17536, 17534, 17534, 17554, 17010, 17800, 17802, 12880, 17272, 17820, 17800, 13108,
   18070, 18068, 18068, 18088, 17536, 18338, 18340, 13338, 17802, 18358, 18338, 13570, 18612,
   18610, 18610, 18630, 18070, 18884, 18886, 13804, 18340, 18904, 18884, 14040, 19162, 19160,
   19160, 19180, 18612, 19438, 19440, 14278, 18886, 19458, 19438, 15004, 20286, 20284, 20284,
   20304, 19720, 20570, 20572, 15250, 20002, 20590, 20570, 15498, 20860, 20858, 20858, 20878,
   20286, 21148, 21150, 15748, 20572, 21168, 21148, 16000, 21442, 21440, 21440, 21460, 20860,
   21734, 21736, 16254, 21150, 21754, 21734, 16510, 22032, 22030, 22030, 22050, 21442, 22328,
   22330, 16768, 21736, 22348, 22328, 17028, 22630, 22628, 22628]

/-- Expected edge codes 700-799 of the 10x10 grid's mesh (emission order). -/
def eLits7 : List Nat :=
  [ 22648, 22032, 22930, 22932, 17290, 22330, 22950, 22930, 17554, 23236, 23234, 23234, 23254,
   22630, 23540, 23542, 17820, 22932, 23560, 23540, 18088, 23850, 23848, 23848, 23868, 23236,
   24158, 24160, 18358, 23542, 24178, 24158, 18630, 24472, 24470, 24470, 24490, 23850, 24784,
   24786, 18904, 24160, 24804, 24784, 19180, 25102, 25100, 25100, 25120, 24472, 25418, 25420,
   19458, 24786, 25438, 25418, 20304, 26386, 26384, 26384, 26404, 25740, 26710, 26712, 20590,
   26062, 26730, 26710, 20878, 27040, 27038, 27038, 27058, 26386, 27368, 27370, 21168, 26712,
   27388, 27368, 21460, 27702, 27700, 27700, 27720, 27040, 28034, 28036, 21754, 27370, 28054,
   28034, 22050, 28372, 28370, 28370, 28390, 27702, 28708, 28710]

/-- Expected edge codes 800-899 of the 10x10 grid's mesh (emission order). -/
def eLits8 : List Nat :=
  [ 22348, 28036, 28728, 28708, 22648, 29050, 29048, 29048, 29068, 28372, 29390, 29392, 22950,
   28710, 29410, 29390, 23254, 29736, 29734, 29734, 29754, 29050, 30080, 30082, 23560, 29392,
   30100, 30080, 23868, 30430, 30428, 30428, 30448, 29736, 30778, 30780, 24178, 30082, 30798,
   30778, 24490, 31132, 31130, 31130, 31150, 30430, 31484, 31486, 24804, 30780, 31504, 31484,
   25120, 31842, 31840, 31840, 31860, 31132, 32198, 32200, 25438, 31486, 32218, 32198, 26404,
   33286, 33284, 33284, 33304, 32560, 33650, 33652, 26730, 32922, 33670, 33650, 27058, 34020,
   34018, 34018, 34038, 33286, 34388, 34390, 27388, 33652, 34408, 34388, 27720, 34762, 34760,
   34760, 34780, 34020, 35134, 35136, 28054, 34390, 35154, 35134]

/-- Expected edge codes 900-999 of the 10x10 grid's mesh (emission order). -/
def eLits9 : List Nat :=
  [ 28390, 35512, 35510, 35510, 35530, 34762, 35888, 35890, 28728, 35136, 35908, 35888, 29068,
   36270, 36268, 36268, 36288, 35512, 36650, 36652, 29410, 35890, 36670, 36650, 29754, 37036,
   37034, 37034, 37054, 36270, 37420, 37422, 30100, 36652, 37440, 37420, 30448, 37810, 37808,
   37808, 37828, 37036, 38198, 38200, 30798, 37422, 38218, 38198, 31150, 38592, 38590, 38590,
   38610, 37810, 38984, 38986, 31504, 38200, 39004, 38984, 31860, 39382, 39380, 39380, 39400,
   38592, 39778, 39780, 32218, 38986, 39798, 39778, 5, 4, 1, 10, 11, 5, 401, 400, 1, 442, 461,
   401, 19, 18, 11, 28, 29, 19, 41, 40, 29, 54, 55, 41, 71, 70, 55, 88]

/-- Expected edge codes 1000-1099 of the 10x10 grid's mesh (emission order). -/
def eLits10 : List Nat :=
  [ 89, 71, 109, 108, 89, 130, 131, 109, 155, 154, 131, 180, 181, 155, 209, 208, 181, 238, 239,
   209, 271, 270, 239, 304, 305, 271, 341, 340, 305, 378, 379, 341, 379, 1462, 1463, 1463, 1559,
   1540, 1621, 1620, 461, 1702, 1721, 1621, 1559, 3402, 3403, 3403, 3539, 3520, 3641, 3640,
   1721, 3762, 3781, 3641, 3539, 6142, 6143, 6143, 6319, 6300, 6461, 6460, 3781, 6622, 6641,
   6461, 6319, 9682, 9683, 9683, 9899, 9880, 10081, 10080, 6641, 10282, 10301, 10081, 9899,
   14022, 14023, 14023, 14279, 14260, 14501, 14500, 10301, 14742, 14761, 14501, 14279, 19162,
   19163, 19163, 19459, 19440, 19721, 19720]

/-- Expected edge codes 1100-1187 of the 10x10 grid's mesh (emission order). -/
def eLits11 : List Nat :=
  [ 14761, 20002, 20021, 19721, 19459, 25102, 25103, 25103, 25439, 25420, 25741, 25740, 20021,
   26062, 26081, 25741, 25439, 31842, 31843, 31843, 32219, 32200, 32941, 33304, 33305, 33305,
   33671, 33670, 32561, 32560, 26081, 32922, 32941, 32561, 33671, 34038, 34039, 34039, 34409,
   34408, 34409, 34780, 34781, 34781, 35155, 35154, 35155, 35530, 35531, 35531, 35909, 35908,
   35909, 36288, 36289, 36289, 36671, 36670, 36671, 37054, 37055, 37055, 37441, 37440, 37441,
   37828, 37829, 37829, 38219, 38218, 38219, 38610, 38611, 38611, 39005, 39004, 39005, 39400,
   39401, 39401, 39799, 39798, 32219, 39382, 39383, 39383, 39799, 39780]

/-- The edge codes of the 10x10 fully occupied grid's mesh, in emission
order; assembled from hundred-element chunks so each chunk can be checked
against the builder's output by its own shallow evaluation. -/
def edgeLits : List Nat :=
  eLits0 ++ (eLits1 ++ (eLits2 ++ (eLits3 ++ (eLits4 ++ (eLits5 ++ (eLits6 ++
    (eLits7 ++ (eLits8 ++ (eLits9 ++ (eLits10 ++ eLits11))))))))))

/-- Executable certificate for claim C1 on a 10×10 grid, evaluated against a
single shared copy of the loop state: face counts, the wall faces lying on
the outer quad ring, and the two sample memberships used by witnesses.  The
edge-code list and its sortedness certificate are checked by the separate
`edgeChunk` and `edge_sort_cert` theorems. -/
def meshChecks (P : LeafParams) (st : VState) : Bool :=
  let surf := (quadList P).flatMap fun c => surfaceQuadSt P st c.1 c.2
  let wall := (quadList P).flatMap fun c => wallQuadSt P st c.1 c.2
  let fs := surf ++ wall
  let es := fs.flatMap faceEdges
  surf.length == 324 && wall.length == 72 && fs.length == 396 &&
    (quadList P).all (fun c => decide (wallQuadSt P st c.1 c.2 = []) ||
      (c.1 == 0 || c.1 == 8 || c.2 == 0 || c.2 == 8)) &&
    decide (((0, 2) : Nat × Nat) ∈ es) && decide (((0, 2, 22) : Face) ∈ fs)

/-- Z component of the cross product `(b - a) × (c - a)` (the geometric
triangle normal's vertical component; it only involves x and y coordinates). -/
def crossZ (a b c : Vec3) : ℚ :=
  (b.1 - a.1) * (c.2.1 - a.2.1) - (b.2.1 - a.2.1) * (c.1 - a.1)

/-- Vertex position referenced by an index (indices emitted by the builder are
always in range, see claim C10). -/
def vertAt (P : LeafParams) (k : Nat) : Vec3 := (vertices P).getD k (0, 0, 0)

/-- Geometric normal Z component of an emitted face. -/
def faceNormalZ (P : LeafParams) (f : Face) : ℚ :=
  crossZ (vertAt P f.1) (vertAt P f.2.1) (vertAt P f.2.2)

/-- Specification helper: the row-major list of occupied cells. -/
def occCells (P : LeafParams) : List (Nat × Nat) :=
  (rowMajor (hSmall P) (wSmall P)).filter fun c => occupiedAt P c.1 c.2

/-- Specification helper: the vertex list generated by a list of occupied
cells (top vertex then bottom vertex per cell). -/
def mkVerts (P : LeafParams) (cells : List (Nat × Nat)) : List Vec3 :=
  cells.flatMap fun c => [topVertex P c.1 c.2, bottomVertex P c.1 c.2]

/-- Specification helper: the index dictionary generated by a list of occupied
cells, with vertex indices starting at `n`. -/
def mkIdx : List (Nat × Nat) → Nat → List (VKey × Nat)
  | [], _ => []
  | c :: cs, n => ((c.1, c.2, true), n) :: ((c.1, c.2, false), n + 1) :: mkIdx cs (n + 2)

/-- The 10×10 fully-occupied grid of claim C1: a 30×30 source sampled at
stride 3, alpha identically 1 (occupied everywhere, threshold 0.3), constant
sampled height 1 and base thickness 1. -/
def fullGrid10 : LeafParams :=
  ⟨30, 30, 3, mkRat 3 10, fun _ _ => 1, fun _ _ => 1, 100, 1, 1⟩

/-- A single-row grid (h_small = 1, w_small = 2): occupied cells exist but no
quad can be active (claim C9). -/
def rowGrid : LeafParams :=
  ⟨3, 6, 3, mkRat 3 10, fun _ _ => 1, fun _ _ => 1, 100, 1, 1⟩

/-- A 4×4 alpha source at stride 3 (claim C4 shape counterexample:
`4 // 3 = 1` but `ceil(4/3) = 2`). -/
def smallGrid4 : LeafParams :=
  ⟨4, 4, 3, mkRat 3 10, fun _ _ => 1, fun _ _ => 1, 100, 1, 1⟩

/-- The convex radial height profile of `create_convex_disc`
(`t = r / radius; height = base_height * (1 + convexity * (1 - t*t))`),
over any field so that it can be instantiated with exact rationals (claim C5)
and with the reals of the floret placement loop (claim C6). -/
def convexHeight {K : Type _} [Field K] (radius base_height convexity r : K) : K :=
  base_height * (1 + convexity * (1 - (r / radius) * (r / radius)))

/-- `golden_angle = np.pi * (3 - np.sqrt(5))` from `create_disc_floret_mesh`. -/
noncomputable def golden_angle : ℝ := Real.pi * (3 - Real.sqrt 5)

/-- Pre-jitter placement angle of floret `i`: `theta = i * golden_angle`. -/
noncomputable def floretTheta (i : Nat) : ℝ := (i : ℝ) * golden_angle

/-- Pre-jitter placement radius of floret `i` out of `num`:
`r = radius * 0.9 * np.sqrt(i / num_florets)`. -/
noncomputable def floretR (radius : ℝ) (num i : Nat) : ℝ :=
  radius * 0.9 * Real.sqrt ((i : ℝ) / (num : ℝ))

/-- The translation applied to a floret sub-mesh. -/
structure Placement where
  px : ℝ
  py : ℝ
  pz : ℝ

/-- Body of the floret placement loop of `create_disc_floret_mesh` for index
`i`: the jitter draws `np.random.uniform(-position_jitter, position_jitter)`
are external collaborators, passed in as `jx`, `jy`.  The sub-mesh scale and
rotation variations do not enter the translation and are omitted. -/
noncomputable def placeFloret (radius base_height convexity : ℝ) (num i : Nat)
    (jx jy : ℝ) : Placement :=
  let theta : ℝ := (i : ℝ) * golden_angle
  let r : ℝ := radius * 0.9 * Real.sqrt ((i : ℝ) / (num : ℝ))
  let x : ℝ := r * Real.cos theta + jx
  let y : ℝ := r * Real.sin theta + jy
  let t : ℝ := r / radius
  let z : ℝ := base_height * (1 + convexity * (1 - t * t))
  ⟨x, y, z⟩

/-- `num_florets = int(area * floret_density * 2.5)` with
`area = np.pi * radius * radius`; Python `int()` truncates toward zero, which
on the nonnegative values arising here coincides with the floor. -/
noncomputable def num_florets (radius density : ℝ) : ℤ :=
  ⌊Real.pi * radius * radius * density * 2.5⌋

/-- Edge codes of the mesh built from an explicitly passed loop state, in
emission order (the packed form of the edges of `faces`). -/
def codesOf (P : LeafParams) (st : VState) : List Nat :=
  ((((quadList P).flatMap fun c => surfaceQuadSt P st c.1 c.2) ++
    ((quadList P).flatMap fun c => wallQuadSt P st c.1 c.2)).flatMap
      faceEdges).map edgeCode

/-- The 10×10 grid's emitted edge codes (checked chunkwise below). -/
def codes10 : List Nat := codesOf fullGrid10 (buildVerts fullGrid10)

/-- Remainder of `codes10` after the first chunk of 100 codes. -/
def drops1 : List Nat := codes10.drop 100

/-- Remainder of `codes10` after 200 codes. -/
def drops2 : List Nat := drops1.drop 100

/-- Remainder of `codes10` after 300 codes. -/
def drops3 : List Nat := drops2.drop 100

/-- Remainder of `codes10` after 400 codes. -/
def drops4 : List Nat := drops3.drop 100

/-- Remainder of `codes10` after 500 codes. -/
def drops5 : List Nat := drops4.drop 100

/-- Remainder of `codes10` after 600 codes. -/
def drops6 : List Nat := drops5.drop 100

/-- Remainder of `codes10` after 700 codes. -/
def drops7 : List Nat := drops6.drop 100

/-- Remainder of `codes10` after 800 codes. -/
def drops8 : List Nat := drops7.drop 100

/-- Remainder of `codes10` after 900 codes. -/
def drops9 : List Nat := drops8.drop 100

/-- Remainder of `codes10` after 1000 codes. -/
def drops10 : List Nat := drops9.drop 100

/-- Remainder of `codes10` after 1100 codes. -/
def drops11 : List Nat := drops10.drop 100

/-! Helper lemmas.  First the count-preservation facts for the fuel-driven
sort and the two-of-each certificate, which turn the cheap executable check
`pairsOKN (msortN _ _)` into the statement that every edge of the mesh is
shared by exactly two faces. -/

theorem mergeN_count (e : Nat) :
    ∀ (fuel : Nat) (xs ys : List Nat),
      (mergeN fuel xs ys).count e = xs.count e + ys.count e
  | 0, xs, ys => by simp [mergeN]
  | _ + 1, [], ys => by simp [mergeN]
  | _ + 1, x :: xs, [] => by simp [mergeN]
  | fuel + 1, x :: xs, y :: ys => by
    rw [mergeN]
    split
    · rw [List.count_cons, List.count_cons, mergeN_count e fuel xs (y :: ys)]
      omega
    · rw [List.count_cons, List.count_cons (b := y), mergeN_count e fuel (x :: xs) ys,
        List.count_cons]
      omega

theorem splitN_count (e : Nat) :
    ∀ l : List Nat, ((splitN l).1.count e) + ((splitN l).2.count e) = l.count e
  | [] => by simp [splitN]
  | a :: rest => by
    have ih := splitN_count e rest
    rcases hs : splitN rest with ⟨l1, l2⟩
    simp only [hs] at ih
    simp only [splitN, hs, List.count_cons]
    split <;> omega

theorem msortN_count (e : Nat) :
    ∀ (fuel : Nat) (l : List Nat), (msortN fuel l).count e = l.count e
  | 0, l => rfl
  | fuel + 1, [] => rfl
  | fuel + 1, [a] => rfl
  | fuel + 1, a :: b :: rest => by
    have ihs := splitN_count e (a :: b :: rest)
    rcases hs : splitN (a :: b :: rest) with ⟨l1, l2⟩
    simp only [hs] at ihs
    simp only [msortN, hs]
    rw [mergeN_count, msortN_count e fuel l1, msortN_count e fuel l2]
    simpa using ihs

theorem bltN_trans {a b c : Nat} (h1 : Nat.blt a b = true) (h2 : Nat.blt b c = true) :
    Nat.blt a c = true := by
  simp only [Nat.blt_eq] at h1 h2 ⊢
  omega

theorem bltN_ne {a b : Nat} (h : Nat.blt a b = true) : a ≠ b := by
  simp only [Nat.blt_eq] at h
  omega

theorem pairsOKN_head : ∀ (x : Nat) (l : List Nat),
    pairsOKN (x :: l) = true → ∀ y ∈ x :: l, x = y ∨ Nat.blt x y = true
  | x, [], _, y, hy => by
    simp at hy
    exact Or.inl hy.symm
  | x, [b], h, y, hy => by
    simp only [pairsOKN, beq_iff_eq] at h
    subst h
    rcases List.mem_cons.1 hy with rfl | hy2
    · exact Or.inl rfl
    · simp at hy2
      exact Or.inl hy2.symm
  | x, b :: c :: rest, h, y, hy => by
    simp only [pairsOKN, Bool.and_eq_true, beq_iff_eq] at h
    obtain ⟨⟨hxb, hxc⟩, hrest⟩ := h
    rcases List.mem_cons.1 hy with rfl | hy2
    · exact Or.inl rfl
    rcases List.mem_cons.1 hy2 with rfl | hy3
    · exact Or.inl hxb
    · rcases pairsOKN_head c rest hrest y hy3 with hcy | hcy
      · exact Or.inr (hcy ▸ hxc)
      · exact Or.inr (bltN_trans hxc hcy)

theorem pairsOKN_count : ∀ (l : List Nat),
    pairsOKN l = true → ∀ e ∈ l, l.count e = 2
  | [], _, e, he => absurd he (by simp)
  | [_], h, _, _ => by simp [pairsOKN] at h
  | [a, b], h, e, he => by
    simp only [pairsOKN, beq_iff_eq] at h
    subst h
    rcases List.mem_cons.1 he with rfl | he2
    · simp [List.count_cons]
    · simp at he2
      subst he2
      simp [List.count_cons]
  | a :: b :: c :: rest, h, e, he => by
    simp only [pairsOKN, Bool.and_eq_true, beq_iff_eq] at h
    obtain ⟨⟨hab, hac⟩, hrest⟩ := h
    subst hab
    have hanotin : a ∉ c :: rest := by
      intro hmem
      rcases pairsOKN_head c rest hrest a hmem with hca | hca
      · exact bltN_ne hac hca.symm
      · exact bltN_ne (bltN_trans hac hca) rfl
    have h0 : (c :: rest).count a = 0 := List.count_eq_zero.2 hanotin
    rcases List.mem_cons.1 he with rfl | he2
    · simp [List.count_cons, h0]
    rcases List.mem_cons.1 he2 with rfl | he3
    · simp [List.count_cons, h0]
    · have hea : e ≠ a := fun hcontra => hanotin (hcontra ▸ he3)
      have h2 := pairsOKN_count (c :: rest) hrest e he3
      simp [List.count_cons, hea, Ne.symm hea, h2]

theorem sorted_codes_count (E : List Nat)
    (hp : pairsOKN (msortN E.length E) = true) :
    ∀ e ∈ E, E.count e = 2 := by
  intro e he
  have hc := msortN_count e E.length E
  have hmem : e ∈ msortN E.length E := by
    have hpos : 0 < E.count e := List.count_pos_iff.2 he
    have : 0 < (msortN E.length E).count e := by omega
    exact List.count_pos_iff.1 this
  have := pairsOKN_count _ hp e hmem
  omega

theorem edgeCode_injective : Function.Injective edgeCode := by
  intro a b hab
  have h := Nat.pair_eq_pair.1 hab
  exact Prod.ext h.1 h.2

theorem count_map_edgeCode (E : List (Nat × Nat)) (e : Nat × Nat) :
    (E.map edgeCode).count (edgeCode e) = E.count e := by
  induction E with
  | nil => simp
  | cons a rest ih =>
    by_cases hae : a = e
    · simp [hae, List.count_cons, ih]
    · have hne : edgeCode a ≠ edgeCode e := fun hc => hae (edgeCode_injective hc)
      simp [List.count_cons, ih, hae, hne]

theorem sorted_edges_count (E : List (Nat × Nat)) (L : List Nat)
    (hmap : E.map edgeCode = L)
    (hp : pairsOKN (msortN L.length L) = true) :
    ∀ e ∈ E, E.count e = 2 := by
  subst hmap
  intro e he
  have h1 := sorted_codes_count (E.map edgeCode) hp (edgeCode e)
    (List.mem_map_of_mem edgeCode he)
  rw [count_map_edgeCode] at h1
  exact h1

/-! Characterization of the vertex-creation loops: the loop state after any
prefix of cells, the association-list lookup, and the resulting guarantees
for the per-cell vertex indices. -/

theorem buildVerts_foldl (P : LeafParams) :
    ∀ (cells : List (Nat × Nat)) (vs : List Vec3) (m : List (VKey × Nat)),
      cells.foldl (fun acc c => addCell P acc c.1 c.2) (vs, m)
        = (vs ++ mkVerts P (cells.filter fun c => occupiedAt P c.1 c.2),
           m ++ mkIdx (cells.filter fun c => occupiedAt P c.1 c.2) vs.length)
  | [], vs, m => by simp [mkVerts, mkIdx]
  | c :: cs, vs, m => by
    by_cases hc : occupiedAt P c.1 c.2 = true
    · rw [List.foldl_cons]
      have hstep : addCell P (vs, m) c.1 c.2
          = (vs ++ [topVertex P c.1 c.2, bottomVertex P c.1 c.2],
             m ++ [((c.1, c.2, true), vs.length), ((c.1, c.2, false), vs.length + 1)]) := by
        simp [addCell, hc]
      rw [hstep, buildVerts_foldl P cs]
      rw [List.filter_cons_of_pos (by simpa using hc)]
      simp [mkVerts, mkIdx, List.append_assoc]
    · rw [List.foldl_cons]
      have hstep : addCell P (vs, m) c.1 c.2 = (vs, m) := by
        simp [addCell, hc]
      rw [hstep, buildVerts_foldl P cs]
      rw [List.filter_cons_of_neg (by simpa using hc)]

theorem buildVerts_eq (P : LeafParams) :
    buildVerts P = (mkVerts P (occCells P), mkIdx (occCells P) 0) := by
  rw [buildVerts, buildVerts_foldl P]
  simp [occCells]

theorem mkIdx_lookup : ∀ (cells : List (Nat × Nat)) (n : Nat), cells.Nodup →
    ∀ c ∈ cells, ∃ k, cells[k]? = some c ∧
      lookupIdx (mkIdx cells n) (c.1, c.2, true) = some (n + 2 * k) ∧
      lookupIdx (mkIdx cells n) (c.1, c.2, false) = some (n + 2 * k + 1)
  | [], _, _, c, hc => absurd hc (by simp)
  | d :: cs, n, hnd, c, hc => by
    rcases List.mem_cons.1 hc with rfl | hc'
    · refine ⟨0, by simp, ?_, ?_⟩
      · rw [mkIdx, lookupIdx, if_pos rfl]
        simp
      · rw [mkIdx, lookupIdx, if_neg (by simp), lookupIdx, if_pos rfl]
    · have hne : c ≠ d := fun hcd => (List.nodup_cons.1 hnd).1 (hcd ▸ hc')
      have hkey : ∀ s s' : Bool, ((c.1, c.2, s) : VKey) ≠ (d.1, d.2, s') ∨ s ≠ s' := by
        intro s s'
        by_cases hss : s = s'
        · left
          intro hk
          apply hne
          have h1 : c.1 = d.1 := congrArg (fun t => t.1) hk
          have h2 : c.2 = d.2 := congrArg (fun t => t.2.1) hk
          exact Prod.ext h1 h2
        · right
          exact hss
      obtain ⟨k, hk, ht, hf⟩ :=
        mkIdx_lookup cs (n + 2) (List.nodup_cons.1 hnd).2 c hc'
      refine ⟨k + 1, by simpa using hk, ?_, ?_⟩
      · have hnt : ((c.1, c.2, true) : VKey) ≠ (d.1, d.2, true) := by
          rcases hkey true true with h | h
          · exact h
          · exact absurd rfl h
        rw [mkIdx, lookupIdx, if_neg hnt, lookupIdx,
          if_neg (by intro hk2; exact absurd (congrArg (fun t => t.2.2) hk2) (by simp)), ht]
        have : n + 2 + 2 * k = n + 2 * (k + 1) := by omega
        rw [this]
      · have hnf : ((c.1, c.2, false) : VKey) ≠ (d.1, d.2, false) := by
          rcases hkey false false with h | h
          · exact h
          · exact absurd rfl h
        rw [mkIdx, lookupIdx,
          if_neg (by intro hk2; exact absurd (congrArg (fun t => t.2.2) hk2) (by simp)), lookupIdx,
          if_neg hnf, hf]
        have : n + 2 + 2 * k + 1 = n + 2 * (k + 1) + 1 := by omega
        rw [this]

theorem mkVerts_length (P : LeafParams) (cells : List (Nat × Nat)) :
    (mkVerts P cells).length = 2 * cells.length := by
  induction cells with
  | nil => simp [mkVerts]
  | cons c cs ih => simp [mkVerts] at ih ⊢; omega

theorem mkVerts_get (P : LeafParams) :
    ∀ (cells : List (Nat × Nat)) (k : Nat) (c : Nat × Nat), cells[k]? = some c →
      (mkVerts P cells)[2 * k]? = some (topVertex P c.1 c.2) ∧
      (mkVerts P cells)[2 * k + 1]? = some (bottomVertex P c.1 c.2)
  | [], k, c, h => by simp at h
  | d :: cs, 0, c, h => by
    simp at h
    subst h
    simp [mkVerts]
  | d :: cs, k + 1, c, h => by
    simp only [List.getElem?_cons_succ] at h
    have ih := mkVerts_get P cs k c h
    have h2 : 2 * (k + 1) = 2 * k + 1 + 1 := by omega
    rw [h2]
    simpa [mkVerts, List.getElem?_cons_succ] using ih
theorem rowMajor_nodup (hs ws : Nat) : (rowMajor hs ws).Nodup := by
  have hprod : rowMajor hs ws = (List.range hs).product (List.range ws) := rfl
  rw [hprod]
  exact (List.nodup_range hs).product (List.nodup_range ws)

theorem mem_rowMajor {hs ws i j : Nat} : (i, j) ∈ rowMajor hs ws ↔ i < hs ∧ j < ws := by
  simp only [rowMajor, List.mem_flatMap, List.mem_map, List.mem_range, Prod.mk.injEq]
  constructor
  · rintro ⟨a, ha, b, hb, rfl, rfl⟩
    exact ⟨ha, hb⟩
  · rintro ⟨hi, hj⟩
    exact ⟨i, hi, j, hj, rfl, rfl⟩

theorem occCells_nodup (P : LeafParams) : (occCells P).Nodup :=
  (rowMajor_nodup (hSmall P) (wSmall P)).filter _

theorem mem_occCells (P : LeafParams) {i j : Nat} :
    (i, j) ∈ occCells P ↔ i < hSmall P ∧ j < wSmall P ∧ occupiedAt P i j = true := by
  simp only [occCells, List.mem_filter, mem_rowMajor]
  tauto
theorem vertex_spec (P : LeafParams) {i j : Nat}
    (hi : i < hSmall P) (hj : j < wSmall P) (ho : occupiedAt P i j = true) :
    ∃ k, vertex_idx P (i, j, true) = some (2 * k) ∧
      vertex_idx P (i, j, false) = some (2 * k + 1) ∧
      2 * k + 1 < (vertices P).length ∧
      (vertices P)[2 * k]? = some (topVertex P i j) ∧
      (vertices P)[2 * k + 1]? = some (bottomVertex P i j) := by
  have hm : (i, j) ∈ occCells P := (mem_occCells P).2 ⟨hi, hj, ho⟩
  obtain ⟨k, hk, ht, hf⟩ := mkIdx_lookup (occCells P) 0 (occCells_nodup P) (i, j) hm
  have hkl : k < (occCells P).length := by
    rcases List.getElem?_eq_some_iff.1 hk with ⟨hlt, _⟩
    exact hlt
  have hverts : vertices P = mkVerts P (occCells P) := by
    rw [vertices, buildVerts_eq]
  have hvidx : ∀ s : Bool, vertex_idx P (i, j, s) = lookupIdx (mkIdx (occCells P) 0) (i, j, s) := by
    intro s
    rw [vertex_idx, buildVerts_eq]
  obtain ⟨hget1, hget2⟩ := mkVerts_get P (occCells P) k (i, j) hk
  refine ⟨k, ?_, ?_, ?_, ?_, ?_⟩
  · rw [hvidx true, ht]
    norm_num
  · rw [hvidx false, hf]
    norm_num
  · rw [hverts, mkVerts_length]
    omega
  · rw [hverts]
    exact hget1
  · rw [hverts]
    exact hget2

theorem vIdx_spec (P : LeafParams) {i j : Nat}
    (hi : i < hSmall P) (hj : j < wSmall P) (ho : occupiedAt P i j = true) :
    vIdx P i j true < (vertices P).length ∧
    vIdx P i j false < (vertices P).length ∧
    vertAt P (vIdx P i j true) = topVertex P i j ∧
    vertAt P (vIdx P i j false) = bottomVertex P i j ∧
    (vertex_idx P (i, j, true)).isSome = true ∧
    (vertex_idx P (i, j, false)).isSome = true := by
  obtain ⟨k, ht, hf, hlen, hg1, hg2⟩ := vertex_spec P hi hj ho
  have hvt : vIdx P i j true = 2 * k := by rw [vIdx, ht]; rfl
  have hvf : vIdx P i j false = 2 * k + 1 := by rw [vIdx, hf]; rfl
  refine ⟨by omega, by omega, ?_, ?_, by rw [ht]; rfl, by rw [hf]; rfl⟩
  · rw [hvt, vertAt, List.getD_eq_getElem?_getD, hg1]
    rfl
  · rw [hvf, vertAt, List.getD_eq_getElem?_getD, hg2]
    rfl

theorem is_leaf_cell_iff (P : LeafParams) (i j : Nat) :
    is_leaf_cell P (i : Int) (j : Int) = true
      ↔ i < hSmall P ∧ j < wSmall P ∧ occupiedAt P i j = true := by
  simp only [is_leaf_cell, Bool.and_eq_true, decide_eq_true_eq, Int.toNat_natCast]
  constructor
  · rintro ⟨⟨⟨⟨_, h2⟩, _⟩, h4⟩, h5⟩
    exact ⟨by exact_mod_cast h2, by exact_mod_cast h4, h5⟩
  · rintro ⟨h1, h2, h3⟩
    refine ⟨⟨⟨⟨by positivity, by exact_mod_cast h1⟩, by positivity⟩, by exact_mod_cast h2⟩, h3⟩

theorem is_leaf_cell_off (P : LeafParams) {i j : Int}
    (h : i < 0 ∨ (hSmall P : Int) ≤ i ∨ j < 0 ∨ (wSmall P : Int) ≤ j) :
    is_leaf_cell P i j = false := by
  rcases h with h | h | h | h
  · simp [is_leaf_cell, not_le.2 h]
  · simp [is_leaf_cell, not_lt.2 h]
  · simp [is_leaf_cell, not_le.2 h]
  · simp [is_leaf_cell, not_lt.2 h]

theorem quadActive_iff (P : LeafParams) (i j : Nat) :
    quadActive P (i : Int) (j : Int) = true
      ↔ i + 1 < hSmall P ∧ j + 1 < wSmall P ∧
        occupiedAt P i j = true ∧ occupiedAt P i (j + 1) = true ∧
        occupiedAt P (i + 1) j = true ∧ occupiedAt P (i + 1) (j + 1) = true := by
  have e1 : ((i : Int) + 1) = ((i + 1 : Nat) : Int) := by push_cast; ring
  have e2 : ((j : Int) + 1) = ((j + 1 : Nat) : Int) := by push_cast; ring
  simp only [quadActive, e1, e2, Bool.and_eq_true, is_leaf_cell_iff]
  constructor
  · rintro ⟨⟨⟨⟨_, _, ho1⟩, ⟨_, hj2, ho2⟩⟩, ⟨hi2, _, ho3⟩⟩, ⟨_, _, ho4⟩⟩
    exact ⟨hi2, hj2, ho1, ho2, ho3, ho4⟩
  · rintro ⟨hi2, hj2, ho1, ho2, ho3, ho4⟩
    exact ⟨⟨⟨⟨by omega, by omega, ho1⟩, ⟨by omega, hj2, ho2⟩⟩, ⟨hi2, by omega, ho3⟩⟩,
      ⟨hi2, hj2, ho4⟩⟩

theorem surfaceQuadSt_eq (P : LeafParams) (i j : Nat) :
    surfaceQuadSt P (buildVerts P) i j = surfaceQuad P i j := rfl

theorem wallQuadSt_eq (P : LeafParams) (i j : Nat) :
    wallQuadSt P (buildVerts P) i j = wallQuad P i j := rfl

theorem chunk_glue (xs ys rest : List Nat) (h1 : xs.take 100 = ys)
    (h2 : xs.drop 100 = rest) : xs = ys ++ rest := by
  rw [← List.take_append_drop 100 xs, h1, h2]

theorem edgeChunk0 : codes10.take 100 = eLits0 := by decide

theorem edgeChunk1 : drops1.take 100 = eLits1 := by decide

theorem edgeChunk2 : drops2.take 100 = eLits2 := by decide

theorem edgeChunk3 : drops3.take 100 = eLits3 := by decide

theorem edgeChunk4 : drops4.take 100 = eLits4 := by decide

theorem edgeChunk5 : drops5.take 100 = eLits5 := by decide

theorem edgeChunk6 : drops6.take 100 = eLits6 := by decide

theorem edgeChunk7 : drops7.take 100 = eLits7 := by decide

theorem edgeChunk8 : drops8.take 100 = eLits8 := by decide

theorem edgeChunk9 : drops9.take 100 = eLits9 := by decide

theorem edgeChunk10 : drops10.take 100 = eLits10 := by decide

theorem edgeChunk11 : drops11 = eLits11 := by decide

theorem codes10_lits : codes10 = edgeLits := by
  have e10 := chunk_glue drops10 eLits10 eLits11 edgeChunk10 edgeChunk11
  have e9 := chunk_glue drops9 eLits9 _ edgeChunk9 e10
  have e8 := chunk_glue drops8 eLits8 _ edgeChunk8 e9
  have e7 := chunk_glue drops7 eLits7 _ edgeChunk7 e8
  have e6 := chunk_glue drops6 eLits6 _ edgeChunk6 e7
  have e5 := chunk_glue drops5 eLits5 _ edgeChunk5 e6
  have e4 := chunk_glue drops4 eLits4 _ edgeChunk4 e5
  have e3 := chunk_glue drops3 eLits3 _ edgeChunk3 e4
  have e2 := chunk_glue drops2 eLits2 _ edgeChunk2 e3
  have e1 := chunk_glue drops1 eLits1 _ edgeChunk1 e2
  exact chunk_glue codes10 eLits0 _ edgeChunk0 e1

theorem codesOf_eq (P : LeafParams) :
    codesOf P (buildVerts P) = (allEdges P).map edgeCode := rfl

theorem hcodes_full : (allEdges fullGrid10).map edgeCode = edgeLits := by
  rw [← codesOf_eq fullGrid10]
  exact codes10_lits

theorem edge_sort_cert : pairsOKN (msortN edgeLits.length edgeLits) = true := by decide

theorem meshChecks_spec (P : LeafParams) (h : meshChecks P (buildVerts P) = true)
    (hcodes : (allEdges P).map edgeCode = edgeLits)
    (hsort : pairsOKN (msortN edgeLits.length edgeLits) = true) :
    (surfaceFaces P).length = 324 ∧ (wallFaces P).length = 72 ∧ (faces P).length = 396 ∧
    (∀ c ∈ quadList P, wallQuad P c.1 c.2 ≠ [] →
      c.1 = 0 ∨ c.1 = 8 ∨ c.2 = 0 ∨ c.2 = 8) ∧
    ((0, 2) : Nat × Nat) ∈ allEdges P ∧ ((0, 2, 22) : Face) ∈ faces P ∧
    (∀ e ∈ allEdges P, (allEdges P).count e = 2) := by
  simp only [meshChecks, surfaceQuadSt_eq, wallQuadSt_eq] at h
  have hsurf : ((quadList P).flatMap fun c => surfaceQuad P c.1 c.2) = surfaceFaces P := rfl
  have hwall : ((quadList P).flatMap fun c => wallQuad P c.1 c.2) = wallFaces P := rfl
  have hfs : surfaceFaces P ++ wallFaces P = faces P := rfl
  have hes : (faces P).flatMap faceEdges = allEdges P := rfl
  simp only [hsurf, hwall, hfs, hes] at h
  simp only [Bool.and_eq_true, beq_iff_eq, List.all_eq_true, Bool.or_eq_true,
    decide_eq_true_eq] at h
  obtain ⟨⟨⟨⟨⟨h1, h2⟩, h3⟩, h4⟩, h5⟩, h6⟩ := h
  refine ⟨h1, h2, h3, ?_, h5, h6,
    sorted_edges_count (allEdges P) edgeLits hcodes hsort⟩
  intro c hc hne
  rcases h4 c hc with he | hpos
  · exact absurd he hne
  · tauto

/-- The executable certificate holds on the 10×10 fully occupied grid (shared
by claim C1 and the witnesses; the edge-code content of the mesh is certified
separately by the `edgeChunk` theorems). -/
theorem fullGrid10_checks : meshChecks fullGrid10 (buildVerts fullGrid10) = true := by decide

/-! Claim theorems. -/

/-- Claim C5 (amended: base_height is additionally required to be
nonnegative): for every radius R > 0, base_height ≥ 0 and convexity in [0,1],
the convex profile of `create_convex_disc` satisfies
`height(r) = base_height * (1 + convexity * (1 - (r/R)^2))`, takes the value
`base_height*(1+convexity)` at r = 0 and `base_height` at r = R, and is
monotonically decreasing on [0, R]. -/
theorem c5_profile (R bh c : ℚ) (hR : 0 < R) (hb : 0 ≤ bh) (hc0 : 0 ≤ c) (hc1 : c ≤ 1) :
    (∀ r : ℚ, convexHeight R bh c r = bh * (1 + c * (1 - (r / R) ^ 2))) ∧
    convexHeight R bh c 0 = bh * (1 + c) ∧
    convexHeight R bh c R = bh ∧
    (∀ r1 r2 : ℚ, 0 ≤ r1 → r1 ≤ r2 → r2 ≤ R →
      convexHeight R bh c r2 ≤ convexHeight R bh c r1) := by
  refine ⟨?_, ?_, ?_, ?_⟩
  · intro r
    rw [convexHeight]
    ring
  · rw [convexHeight]
    norm_num
  · rw [convexHeight, div_self hR.ne']
    ring
  · intro r1 r2 h0 h12 h2R
    rw [convexHeight, convexHeight]
    have hdiv : r1 / R ≤ r2 / R := by gcongr
    have hdiv0 : 0 ≤ r1 / R := by positivity
    have hsq : (r1 / R) * (r1 / R) ≤ (r2 / R) * (r2 / R) :=
      mul_le_mul hdiv hdiv hdiv0 (hdiv0.trans hdiv)
    have hbc : 0 ≤ bh * c := mul_nonneg hb hc0
    nlinarith [hsq, hbc]

/-- Claim C5, counterexample to the claim as stated: with base_height = -1
(the claim quantifies over every base_height) the profile is increasing, not
monotonically decreasing, on [0, R] for R = 1, convexity = 1. -/
theorem c5_counterexample :
    ¬ (∀ r1 r2 : ℚ, 0 ≤ r1 → r1 ≤ r2 → r2 ≤ 1 →
        convexHeight 1 (-1) 1 r2 ≤ convexHeight 1 (-1) 1 r1) := by
  intro hmono
  have h := hmono 0 1 le_rfl zero_le_one le_rfl
  rw [convexHeight, convexHeight] at h
  norm_num at h

/-- Claim C5, witness: the amended theorem applied at R = 1, base_height = 1,
convexity = 1/2 yields height(R) = base_height. -/
theorem c5_witness : convexHeight 1 1 (mkRat 1 2) 1 = 1 :=
  (c5_profile 1 1 (mkRat 1 2) (by decide) (by decide) (by decide) (by decide)).2.2.1

/-- Claim C6: for every floret index, the placement made by
`create_disc_floret_mesh` has angle `i * golden_angle` with
`golden_angle = π(3 - √5)`, radius `R * 0.9 * sqrt(i/n)`, and a translation
whose z coordinate is the convex profile evaluated at the pre-jitter radius;
the jitter `jx`, `jy` enters only the x and y coordinates, never z. -/
theorem c6_placement (radius base_height convexity : ℝ) (num i : Nat) (jx jy : ℝ) :
    (placeFloret radius base_height convexity num i jx jy).pz
        = convexHeight radius base_height convexity (floretR radius num i) ∧
    (placeFloret radius base_height convexity num i jx jy).pz
        = (placeFloret radius base_height convexity num i 0 0).pz ∧
    (placeFloret radius base_height convexity num i jx jy).px
        = floretR radius num i * Real.cos (floretTheta i) + jx ∧
    (placeFloret radius base_height convexity num i jx jy).py
        = floretR radius num i * Real.sin (floretTheta i) + jy ∧
    floretTheta i = (i : ℝ) * (Real.pi * (3 - Real.sqrt 5)) ∧
    floretR radius num i = radius * 0.9 * Real.sqrt ((i : ℝ) / (num : ℝ)) :=
  ⟨rfl, rfl, rfl, rfl, rfl, rfl⟩

/-- Claim C7: `create_disc_floret_mesh` places `⌊π R² · density · 2.5⌋`
florets, and for radius 10 (20 mm diameter) and density 1 this count is 785. -/
theorem c7_count : (∀ radius density : ℝ,
      num_florets radius density = ⌊Real.pi * radius ^ 2 * density * 2.5⌋) ∧
    num_florets 10 1 = 785 := by
  constructor
  · intro radius density
    rw [num_florets]
    congr 1
    ring
  · have h1 := Real.pi_gt_d6
    have h2 := Real.pi_lt_d6
    rw [num_florets, Int.floor_eq_iff]
    constructor
    · push_cast
      nlinarith
    · push_cast
      nlinarith
/-- Claim C4 (amended: the grid shape uses floor division `(H // S, W // S)`,
not the ceiling): for every alpha source, stride and threshold, the
downsampled occupancy data of `create_watertight_mesh` has `H // S` rows of
`W // S` entries each, entry `(i, j)` samples the clamped position
`alpha[min(i*S, H-1), min(j*S, W-1)]`, and cell `(i, j)` is occupied exactly
when that sample exceeds the threshold. -/
theorem c4_grid (P : LeafParams) (hstep : 1 ≤ P.step) :
    (alpha_small P).length = P.h / P.step ∧
    (∀ row ∈ alpha_small P, row.length = P.w / P.step) ∧
    (∀ i j : Nat, i < P.h / P.step → j < P.w / P.step →
      ((alpha_small P).getD i []).getD j 0
        = P.alpha (min (i * P.step) (P.h - 1)) (min (j * P.step) (P.w - 1))) ∧
    (∀ i j : Nat, occupiedAt P i j
        = decide (P.alphaThreshold
            < P.alpha (min (i * P.step) (P.h - 1)) (min (j * P.step) (P.w - 1)))) := by
  refine ⟨?_, ?_, ?_, ?_⟩
  · simp [alpha_small, hSmall]
  · intro row hrow
    simp only [alpha_small, List.mem_map] at hrow
    obtain ⟨a, _, rfl⟩ := hrow
    simp [wSmall]
  · intro i j hi hj
    have h1 : ((alpha_small P).getD i [])
        = (List.range (wSmall P)).map fun t => alphaSmallAt P i t := by
      rw [List.getD_eq_getElem?_getD, alpha_small, List.getElem?_map,
        List.getElem?_range (by simpa [hSmall] using hi)]
      rfl
    rw [h1, List.getD_eq_getElem?_getD, List.getElem?_map,
      List.getElem?_range (by simpa [wSmall] using hj)]
    rfl
  · intro i j
    rfl

/-- Claim C4, counterexample to the claim as stated: a 4×4 alpha source at
stride 3 yields a 1×1 grid (floor division), not the 2×2 grid that the
claimed shape `(ceil(H/S), ceil(W/S)) = ((4+3-1)/3, (4+3-1)/3)` requires. -/
theorem c4_counterexample :
    ¬ ((alpha_small smallGrid4).length = (4 + 3 - 1) / 3 ∧
       ∀ row ∈ alpha_small smallGrid4, row.length = (4 + 3 - 1) / 3) := by
  decide

/-- Claim C4, witness: the amended theorem applied to the 30×30 source at
stride 3 gives a grid with 10 rows whose entry (2,3) is the clamped alpha
sample (value 1 here). -/
theorem c4_witness :
    (alpha_small fullGrid10).length = 10 ∧
      ((alpha_small fullGrid10).getD 2 []).getD 3 0 = 1 := by
  have h := c4_grid fullGrid10 (by decide)
  refine ⟨h.1.trans (by decide), ?_⟩
  have h2 := h.2.2.1 2 3 (by decide) (by decide)
  rw [h2]
  rfl

/-- Claim C8: the vertex list of `create_watertight_mesh` consists of exactly
one top vertex (z the sampled height) and one bottom vertex
(z = -base_thickness) per occupied cell, at the same x, y position, in
row-major cell order, and contains nothing else; in particular its length is
twice the number of occupied cells. -/
theorem c8_vertices (P : LeafParams) :
    vertices P = (occCells P).flatMap
      (fun c => [(xPos P c.2, yPos P c.1, zTop P c.1 c.2),
                 (xPos P c.2, yPos P c.1, -P.base_thickness)]) ∧
    (vertices P).length = 2 * (occCells P).length := by
  have h : vertices P = mkVerts P (occCells P) := by rw [vertices, buildVerts_eq]
  exact ⟨h, by rw [h, mkVerts_length]⟩

/-- Claim C9: on a grid that has occupied cells but no active quad (for
example a single-row grid) the builder returns vertices but an empty face
list. -/
theorem c9_degenerate (P : LeafParams)
    (hocc : ∃ i j, i < hSmall P ∧ j < wSmall P ∧ occupiedAt P i j = true)
    (hq : ∀ i j : Nat, quadActive P (i : Int) (j : Int) = false) :
    vertices P ≠ [] ∧ faces P = [] := by
  constructor
  · obtain ⟨i, j, hi, hj, ho⟩ := hocc
    obtain ⟨k, _, _, hlen, _, _⟩ := vertex_spec P hi hj ho
    intro hnil
    rw [hnil] at hlen
    simp at hlen
  · have hsq : surfaceFaces P = [] := by
      rw [surfaceFaces, List.flatMap_eq_nil_iff]
      intro c _
      simp [surfaceQuad, hq c.1 c.2]
    have hwq : wallFaces P = [] := by
      rw [wallFaces, List.flatMap_eq_nil_iff]
      intro c _
      simp [wallQuad, hq c.1 c.2]
    rw [faces, hsq, hwq]
    rfl

/-- Claim C9, witness: a 3×6 alpha source at stride 3 yields a single-row
1×2 grid, which has occupied cells, vertices, and no faces. -/
theorem c9_witness : vertices rowGrid ≠ [] ∧ faces rowGrid = [] :=
  c9_degenerate rowGrid ⟨0, 0, by decide, by decide, by decide⟩ (fun i j => by
    have h1 : (hSmall rowGrid : Int) ≤ (i : Int) + 1 := by
      have he : hSmall rowGrid = 1 := by decide
      rw [he]
      omega
    simp [quadActive, is_leaf_cell_off rowGrid (Or.inr (Or.inl h1))])
theorem quadActive_corners (P : LeafParams) {i j : Nat}
    (hq : quadActive P (i : Int) (j : Int) = true) :
    is_leaf_cell P (i : Int) (j : Int) = true ∧
    is_leaf_cell P (i : Int) ((j : Int) + 1) = true ∧
    is_leaf_cell P ((i : Int) + 1) (j : Int) = true ∧
    is_leaf_cell P ((i : Int) + 1) ((j : Int) + 1) = true := by
  simp only [quadActive, Bool.and_eq_true] at hq
  exact ⟨hq.1.1.1, hq.1.1.2, hq.1.2, hq.2⟩

theorem north_cond (P : LeafParams) {i j : Nat}
    (hq : quadActive P (i : Int) (j : Int) = true) :
    ((i == 0) ||
      !(is_leaf_cell P ((i : Int) - 1) (j : Int) &&
        is_leaf_cell P ((i : Int) - 1) ((j : Int) + 1)))
      = !(quadActive P ((i : Int) - 1) (j : Int)) := by
  obtain ⟨l1, l2, _, _⟩ := quadActive_corners P hq
  have e1 : (i : Int) - 1 + 1 = (i : Int) := by ring
  by_cases hi0 : i = 0
  · have hbeq : (i == 0) = true := by simp [hi0]
    have hoff : is_leaf_cell P ((i : Int) - 1) (j : Int) = false := by
      apply is_leaf_cell_off
      left
      omega
    simp [quadActive, hoff, hbeq]
  · simp [quadActive, e1, l1, l2, hi0]

theorem south_cond (P : LeafParams) {i j : Nat}
    (hq : quadActive P (i : Int) (j : Int) = true) :
    ((i == hSmall P - 2) ||
      !(is_leaf_cell P ((i : Int) + 2) (j : Int) &&
        is_leaf_cell P ((i : Int) + 2) ((j : Int) + 1)))
      = !(quadActive P ((i : Int) + 1) (j : Int)) := by
  obtain ⟨_, _, l3, l4⟩ := quadActive_corners P hq
  have hi2 := ((quadActive_iff P i j).1 hq).1
  have e1 : (i : Int) + 1 + 1 = (i : Int) + 2 := by ring
  by_cases hie : i = hSmall P - 2
  · have hoff : is_leaf_cell P ((i : Int) + 2) (j : Int) = false := by
      apply is_leaf_cell_off
      right; left
      omega
    have hbeq : (i == hSmall P - 2) = true := by simp [hie]
    simp [quadActive, e1, hoff, hbeq]
  · simp [quadActive, e1, l3, l4, hie]

theorem west_cond (P : LeafParams) {i j : Nat}
    (hq : quadActive P (i : Int) (j : Int) = true) :
    ((j == 0) ||
      !(is_leaf_cell P (i : Int) ((j : Int) - 1) &&
        is_leaf_cell P ((i : Int) + 1) ((j : Int) - 1)))
      = !(quadActive P (i : Int) ((j : Int) - 1)) := by
  obtain ⟨l1, _, l3, _⟩ := quadActive_corners P hq
  have e1 : (j : Int) - 1 + 1 = (j : Int) := by ring
  by_cases hj0 : j = 0
  · have hoff : is_leaf_cell P (i : Int) ((j : Int) - 1) = false := by
      apply is_leaf_cell_off
      right; right; left
      omega
    have hbeq : (j == 0) = true := by simp [hj0]
    simp [quadActive, e1, hoff, hbeq]
  · simp [quadActive, e1, l1, l3, hj0]

theorem east_cond (P : LeafParams) {i j : Nat}
    (hq : quadActive P (i : Int) (j : Int) = true) :
    ((j == wSmall P - 2) ||
      !(is_leaf_cell P (i : Int) ((j : Int) + 2) &&
        is_leaf_cell P ((i : Int) + 1) ((j : Int) + 2)))
      = !(quadActive P (i : Int) ((j : Int) + 1)) := by
  obtain ⟨_, l2, _, l4⟩ := quadActive_corners P hq
  have hj2 := ((quadActive_iff P i j).1 hq).2.1
  have e1 : (j : Int) + 1 + 1 = (j : Int) + 2 := by ring
  by_cases hje : j = wSmall P - 2
  · have hoff : is_leaf_cell P (i : Int) ((j : Int) + 2) = false := by
      apply is_leaf_cell_off
      right; right; right
      omega
    have hbeq : (j == wSmall P - 2) = true := by simp [hje]
    simp [quadActive, e1, hoff, hbeq]
  · simp [quadActive, e1, l2, l4, hje]
/-- Claim C2: for every active quad, each of its four edges receives exactly
one wall face pair (two triangles joining the edge's top vertices to its
bottom vertices) precisely when the neighbouring quad across that edge is
inactive or missing (at the grid border), and no wall faces otherwise: the
wall emission for the quad is literally the concatenation of the four
neighbour-inactive conditionals. -/
theorem c2_walls (P : LeafParams) (i j : Nat)
    (hq : quadActive P (i : Int) (j : Int) = true) :
    wallQuad P i j =
      (if quadActive P ((i : Int) - 1) (j : Int) = false then
        [(vIdx P i j false, vIdx P i (j + 1) true, vIdx P i j true),
         (vIdx P i j false, vIdx P i (j + 1) false, vIdx P i (j + 1) true)]
       else []) ++
      (if quadActive P ((i : Int) + 1) (j : Int) = false then
        [(vIdx P (i + 1) j false, vIdx P (i + 1) j true, vIdx P (i + 1) (j + 1) true),
         (vIdx P (i + 1) j false, vIdx P (i + 1) (j + 1) true, vIdx P (i + 1) (j + 1) false)]
       else []) ++
      (if quadActive P (i : Int) ((j : Int) - 1) = false then
        [(vIdx P i j false, vIdx P (i + 1) j true, vIdx P i j true),
         (vIdx P i j false, vIdx P (i + 1) j false, vIdx P (i + 1) j true)]
       else []) ++
      (if quadActive P (i : Int) ((j : Int) + 1) = false then
        [(vIdx P i (j + 1) false, vIdx P i (j + 1) true, vIdx P (i + 1) (j + 1) true),
         (vIdx P i (j + 1) false, vIdx P (i + 1) (j + 1) true, vIdx P (i + 1) (j + 1) false)]
       else []) := by
  rw [wallQuad, if_pos hq, north_cond P hq, south_cond P hq, west_cond P hq, east_cond P hq]
  simp only [Bool.not_eq_true']

/-- Claim C2, witness: the corner quad (0,0) of the fully occupied 10×10 grid
has missing north and west neighbours and active south and east neighbours,
so exactly its north and west edges emit wall pairs. -/
theorem c2_witness : wallQuad fullGrid10 0 0 =
    [(1, 2, 0), (1, 3, 2), (1, 20, 0), (1, 21, 20)] := by
  rw [c2_walls fullGrid10 0 0 (by decide)]
  decide
theorem xPos_succ_sub (P : LeafParams) (j : Nat) : xPos P (j + 1) - xPos P j = dxOf P := by
  simp only [xPos]
  push_cast
  ring

theorem yPos_succ_sub (P : LeafParams) (i : Nat) : yPos P (i + 1) - yPos P i = dyOf P := by
  simp only [yPos]
  push_cast
  ring

theorem surface_normal_values (P : LeafParams) {i j : Nat}
    (hq : quadActive P (i : Int) (j : Int) = true) :
    faceNormalZ P (vIdx P i j true, vIdx P i (j + 1) true, vIdx P (i + 1) (j + 1) true)
        = dxOf P * dyOf P ∧
    faceNormalZ P (vIdx P i j true, vIdx P (i + 1) (j + 1) true, vIdx P (i + 1) j true)
        = dxOf P * dyOf P ∧
    faceNormalZ P (vIdx P i j false, vIdx P (i + 1) (j + 1) false, vIdx P i (j + 1) false)
        = -(dxOf P * dyOf P) ∧
    faceNormalZ P (vIdx P i j false, vIdx P (i + 1) j false, vIdx P (i + 1) (j + 1) false)
        = -(dxOf P * dyOf P) := by
  obtain ⟨hi2, hj2, ho1, ho2, ho3, ho4⟩ := (quadActive_iff P i j).1 hq
  have s1 := vIdx_spec P (i := i) (j := j) (by omega) (by omega) ho1
  have s2 := vIdx_spec P (i := i) (j := j + 1) (by omega) (by omega) ho2
  have s3 := vIdx_spec P (i := i + 1) (j := j) (by omega) (by omega) ho3
  have s4 := vIdx_spec P (i := i + 1) (j := j + 1) (by omega) (by omega) ho4
  have hx := xPos_succ_sub P j
  have hy := yPos_succ_sub P i
  refine ⟨?_, ?_, ?_, ?_⟩ <;>
    · simp only [faceNormalZ, s1.2.2.1, s2.2.2.1, s3.2.2.1, s4.2.2.1,
        s1.2.2.2.1, s2.2.2.2.1, s3.2.2.2.1, s4.2.2.2.1, crossZ, topVertex, bottomVertex]
      simp only [xPos, yPos]
      push_cast
      ring

/-- Claim C3: surface faces are emitted exactly for quads whose 4 corners are
occupied; an active quad yields the two top triangles split along the
`(i,j)-(i+1,j+1)` diagonal with geometric normal pointing up (positive Z
component) and the two reversed bottom triangles with normal pointing down,
provided the configured `scale_xy` is positive (100.0 in the script). -/
theorem c3_surface (P : LeafParams) (i j : Nat) (hxy : 0 < P.scale_xy) :
    (quadActive P (i : Int) (j : Int) = false → surfaceQuad P i j = []) ∧
    (quadActive P (i : Int) (j : Int) = true →
      surfaceQuad P i j =
        [(vIdx P i j true, vIdx P i (j + 1) true, vIdx P (i + 1) (j + 1) true),
         (vIdx P i j true, vIdx P (i + 1) (j + 1) true, vIdx P (i + 1) j true),
         (vIdx P i j false, vIdx P (i + 1) (j + 1) false, vIdx P i (j + 1) false),
         (vIdx P i j false, vIdx P (i + 1) j false, vIdx P (i + 1) (j + 1) false)] ∧
      0 < faceNormalZ P (vIdx P i j true, vIdx P i (j + 1) true, vIdx P (i + 1) (j + 1) true) ∧
      0 < faceNormalZ P (vIdx P i j true, vIdx P (i + 1) (j + 1) true, vIdx P (i + 1) j true) ∧
      faceNormalZ P (vIdx P i j false, vIdx P (i + 1) (j + 1) false, vIdx P i (j + 1) false) < 0 ∧
      faceNormalZ P (vIdx P i j false, vIdx P (i + 1) j false, vIdx P (i + 1) (j + 1) false) < 0) := by
  constructor
  · intro h
    simp [surfaceQuad, h]
  · intro hq
    obtain ⟨hi2, hj2, _, _, _, _⟩ := (quadActive_iff P i j).1 hq
    obtain ⟨n1, n2, n3, n4⟩ := surface_normal_values P hq
    have hws : (0 : ℚ) < (wSmall P : ℚ) := by
      have h0 : 0 < wSmall P := by omega
      exact_mod_cast h0
    have hhs : (0 : ℚ) < (hSmall P : ℚ) := by
      have h0 : 0 < hSmall P := by omega
      exact_mod_cast h0
    have hpos : 0 < dxOf P * dyOf P := mul_pos (div_pos hxy hws) (div_pos hxy hhs)
    refine ⟨by rw [surfaceQuad, if_pos hq], ?_, ?_, ?_, ?_⟩
    · rw [n1]
      exact hpos
    · rw [n2]
      exact hpos
    · rw [n3]
      linarith
    · rw [n4]
      linarith

/-- Claim C3, witness: the active quad (0,0) of the fully occupied grid emits
the four listed faces, the top pair with positive and the bottom pair with
negative normal Z component. -/
theorem c3_witness :
    surfaceQuad fullGrid10 0 0 =
      [(vIdx fullGrid10 0 0 true, vIdx fullGrid10 0 1 true, vIdx fullGrid10 1 1 true),
       (vIdx fullGrid10 0 0 true, vIdx fullGrid10 1 1 true, vIdx fullGrid10 1 0 true),
       (vIdx fullGrid10 0 0 false, vIdx fullGrid10 1 1 false, vIdx fullGrid10 0 1 false),
       (vIdx fullGrid10 0 0 false, vIdx fullGrid10 1 0 false, vIdx fullGrid10 1 1 false)] ∧
    0 < faceNormalZ fullGrid10
        (vIdx fullGrid10 0 0 true, vIdx fullGrid10 0 1 true, vIdx fullGrid10 1 1 true) ∧
    0 < faceNormalZ fullGrid10
        (vIdx fullGrid10 0 0 true, vIdx fullGrid10 1 1 true, vIdx fullGrid10 1 0 true) ∧
    faceNormalZ fullGrid10
        (vIdx fullGrid10 0 0 false, vIdx fullGrid10 1 1 false, vIdx fullGrid10 0 1 false) < 0 ∧
    faceNormalZ fullGrid10
        (vIdx fullGrid10 0 0 false, vIdx fullGrid10 1 0 false, vIdx fullGrid10 1 1 false) < 0 :=
  (c3_surface fullGrid10 0 0 (by decide)).2 (by decide)
theorem mem_ite_nil {α : Type _} {c : Prop} [Decidable c] {l : List α} {x : α}
    (h : x ∈ if c then l else []) : x ∈ l := by
  split at h
  · exact h
  · simp at h

theorem corner_bounds (P : LeafParams) {i j : Nat}
    (hq : quadActive P (i : Int) (j : Int) = true) (s : Bool) :
    vIdx P i j s < (vertices P).length ∧
    vIdx P i (j + 1) s < (vertices P).length ∧
    vIdx P (i + 1) j s < (vertices P).length ∧
    vIdx P (i + 1) (j + 1) s < (vertices P).length := by
  obtain ⟨hi2, hj2, ho1, ho2, ho3, ho4⟩ := (quadActive_iff P i j).1 hq
  have s1 := vIdx_spec P (i := i) (j := j) (by omega) (by omega) ho1
  have s2 := vIdx_spec P (i := i) (j := j + 1) (by omega) (by omega) ho2
  have s3 := vIdx_spec P (i := i + 1) (j := j) (by omega) (by omega) ho3
  have s4 := vIdx_spec P (i := i + 1) (j := j + 1) (by omega) (by omega) ho4
  cases s
  · exact ⟨s1.2.1, s2.2.1, s3.2.1, s4.2.1⟩
  · exact ⟨s1.1, s2.1, s3.1, s4.1⟩

/-- Claim C10: every face emitted by the builder references only existing
vertices: all three indices are strictly below the vertex count (the lookup
default is the out-of-range sentinel, so this also certifies that every
dictionary lookup during face emission succeeded), and for every active quad
all eight corner lookups are `some`. -/
theorem c10_safety (P : LeafParams) :
    (∀ f ∈ faces P, f.1 < (vertices P).length ∧ f.2.1 < (vertices P).length ∧
      f.2.2 < (vertices P).length) ∧
    (∀ i j : Nat, quadActive P (i : Int) (j : Int) = true → ∀ s : Bool,
      (vertex_idx P (i, j, s)).isSome = true ∧
      (vertex_idx P (i, j + 1, s)).isSome = true ∧
      (vertex_idx P (i + 1, j, s)).isSome = true ∧
      (vertex_idx P (i + 1, j + 1, s)).isSome = true) := by
  constructor
  · intro f hf
    rcases List.mem_append.1 hf with hs | hw
    · obtain ⟨c, _, hmem⟩ := List.mem_flatMap.1 hs
      rw [surfaceQuad] at hmem
      by_cases hq : quadActive P (c.1 : Int) (c.2 : Int) = true
      · rw [if_pos hq] at hmem
        have hbt := corner_bounds P hq true
        have hbf := corner_bounds P hq false
        simp only [List.mem_cons, List.not_mem_nil, or_false] at hmem
        rcases hmem with rfl | rfl | rfl | rfl
        · exact ⟨hbt.1, hbt.2.1, hbt.2.2.2⟩
        · exact ⟨hbt.1, hbt.2.2.2, hbt.2.2.1⟩
        · exact ⟨hbf.1, hbf.2.2.2, hbf.2.1⟩
        · exact ⟨hbf.1, hbf.2.2.1, hbf.2.2.2⟩
      · rw [if_neg hq] at hmem
        simp at hmem
    · obtain ⟨c, _, hmem⟩ := List.mem_flatMap.1 hw
      rw [wallQuad] at hmem
      by_cases hq : quadActive P (c.1 : Int) (c.2 : Int) = true
      · rw [if_pos hq] at hmem
        have hbt := corner_bounds P hq true
        have hbf := corner_bounds P hq false
        rcases List.mem_append.1 hmem with hm | hm4
        rotate_left
        · have hm4' := mem_ite_nil hm4
          simp only [List.mem_cons, List.not_mem_nil, or_false] at hm4'
          rcases hm4' with rfl | rfl
          · exact ⟨hbf.2.1, hbt.2.1, hbt.2.2.2⟩
          · exact ⟨hbf.2.1, hbt.2.2.2, hbf.2.2.2⟩
        rcases List.mem_append.1 hm with hm | hm3
        rotate_left
        · have hm3' := mem_ite_nil hm3
          simp only [List.mem_cons, List.not_mem_nil, or_false] at hm3'
          rcases hm3' with rfl | rfl
          · exact ⟨hbf.1, hbt.2.2.1, hbt.1⟩
          · exact ⟨hbf.1, hbf.2.2.1, hbt.2.2.1⟩
        rcases List.mem_append.1 hm with hm1 | hm2
        · have hm1' := mem_ite_nil hm1
          simp only [List.mem_cons, List.not_mem_nil, or_false] at hm1'
          rcases hm1' with rfl | rfl
          · exact ⟨hbf.1, hbt.2.1, hbt.1⟩
          · exact ⟨hbf.1, hbf.2.1, hbt.2.1⟩
        · have hm2' := mem_ite_nil hm2
          simp only [List.mem_cons, List.not_mem_nil, or_false] at hm2'
          rcases hm2' with rfl | rfl
          · exact ⟨hbf.2.2.1, hbt.2.2.1, hbt.2.2.2⟩
          · exact ⟨hbf.2.2.1, hbt.2.2.2, hbf.2.2.2⟩
      · rw [if_neg hq] at hmem
        simp at hmem
  · intro i j hq s
    obtain ⟨hi2, hj2, ho1, ho2, ho3, ho4⟩ := (quadActive_iff P i j).1 hq
    have s1 := vIdx_spec P (i := i) (j := j) (by omega) (by omega) ho1
    have s2 := vIdx_spec P (i := i) (j := j + 1) (by omega) (by omega) ho2
    have s3 := vIdx_spec P (i := i + 1) (j := j) (by omega) (by omega) ho3
    have s4 := vIdx_spec P (i := i + 1) (j := j + 1) (by omega) (by omega) ho4
    cases s
    · exact ⟨s1.2.2.2.2.2, s2.2.2.2.2.2, s3.2.2.2.2.2, s4.2.2.2.2.2⟩
    · exact ⟨s1.2.2.2.2.1, s2.2.2.2.2.1, s3.2.2.2.2.1, s4.2.2.2.2.1⟩

/-- Claim C10, witness: the first emitted face of the fully occupied grid,
(0, 2, 22), references only valid vertex indices. -/
theorem c10_witness :
    ((0, 2, 22) : Face).1 < (vertices fullGrid10).length ∧
    ((0, 2, 22) : Face).2.1 < (vertices fullGrid10).length ∧
    ((0, 2, 22) : Face).2.2 < (vertices fullGrid10).length :=
  (c10_safety fullGrid10).1 (0, 2, 22)
    (meshChecks_spec fullGrid10 fullGrid10_checks hcodes_full edge_sort_cert).2.2.2.2.2.1
/-- Claim C1: on the 10×10 fully occupied grid with constant sampled height 1
and base thickness 1, the builder emits exactly 324 top+bottom surface faces
and 72 wall faces (the wall-emitting quads all lie on the outer ring of the
9×9 quad grid), 396 faces in total, and the mesh has zero open edges: every
edge belongs to exactly two faces. -/
theorem c1_endToEnd :
    hSmall fullGrid10 = 10 ∧ wSmall fullGrid10 = 10 ∧
    (∀ i < 10, ∀ j < 10, occupiedAt fullGrid10 i j = true) ∧
    (∀ i < 10, ∀ j < 10, zTop fullGrid10 i j = 1) ∧
    fullGrid10.base_thickness = 1 ∧
    (surfaceFaces fullGrid10).length = 324 ∧
    (wallFaces fullGrid10).length = 72 ∧
    (faces fullGrid10).length = 396 ∧
    (∀ c ∈ quadList fullGrid10, wallQuad fullGrid10 c.1 c.2 ≠ [] →
      c.1 = 0 ∨ c.1 = 8 ∨ c.2 = 0 ∨ c.2 = 8) ∧
    (∀ e ∈ allEdges fullGrid10, (allEdges fullGrid10).count e = 2) := by
  obtain ⟨h1, h2, h3, h4, _, _, h7⟩ :=
    meshChecks_spec fullGrid10 fullGrid10_checks hcodes_full edge_sort_cert
  refine ⟨by decide, by decide, by decide, ?_, rfl, h1, h2, h3, h4, h7⟩
  intro i _ j _
  simp [zTop, fullGrid10]

/-- Claim C1, witness: the edge (0, 2) of the first face is indeed shared by
exactly two faces. -/
theorem c1_witness : (allEdges fullGrid10).count (0, 2) = 2 :=
  c1_endToEnd.2.2.2.2.2.2.2.2.2 (0, 2)
    (meshChecks_spec fullGrid10 fullGrid10_checks hcodes_full edge_sort_cert).2.2.2.2.1
